import Mathlib

/-!
Shallow embedding of the pydantic-v2 validation models of autofaq-api
(src/autofaq_api/models/kb_crud_models.py and kb_external_models.py) and
verification of the record-level validation claims about them.

Modelling conventions:
* Python strings are lists of characters (PyStr).
* Python datetime values are explicit records of their wall-clock fields
  plus an optional fixed UTC offset.
* Python floats are rationals.
* A raised Python exception is an Except error; the exception class is
  tracked because pydantic converts ValueError (but not TypeError or
  AttributeError) raised inside a validator into a validation error.
* The code targets pydantic v2 (it imports field_validator, ConfigDict
  and model_validator, none of which exist in v1).  Relevant pydantic-v2
  facts that the embedding encodes, each stated at its definition:
  default values skip field validators (validate_default is unset); an
  after-mode validator of a datetime-annotated field receives the already
  parsed datetime object; the second positional argument of a v2 field
  validator is the pydantic-core ValidationInfo object.
-/

/-- Python str modelled as a list of characters. -/
abbrev PyStr := List Char

/-- The Python exception classes raised by the modelled code.  pydantic
turns a ValueError raised inside a validator into a validation error of
the model; TypeError and AttributeError propagate out of validation
unhandled. -/
inductive PyExc where
  | valueError
  | typeError
  | attributeError
deriving DecidableEq, Repr

/-- Whitespace stripped by Python str.strip (ASCII range, which covers
every string occurring in the claims). -/
def pyIsSpace (c : Char) : Bool :=
  c = ' ' || c = '\t' || c = '\n' || c = '\r' || c = '\x0b' || c = '\x0c'

/-- Embedding of Python str.strip(): drop leading and trailing whitespace. -/
def pyStrip (s : PyStr) : PyStr :=
  ((s.dropWhile pyIsSpace).reverse.dropWhile pyIsSpace).reverse

/-- Embedding of Python str.lower() (ASCII case mapping, which covers
every string occurring in the claims). -/
def pyLower (s : PyStr) : PyStr :=
  s.map Char.toLower

/-- Embedding of Python str.split(sep) for a one-character separator:
the list of maximal chunks between occurrences of the separator. -/
def pySplit (c : Char) : PyStr → List PyStr
  | [] => [[]]
  | x :: xs =>
    let r := pySplit c xs
    if x = c then [] :: r
    else (x :: r.headD []) :: r.tail

/-- Embedding of Python len(set(l)): the number of distinct elements. -/
def pySetSize {α : Type} [DecidableEq α] (l : List α) : Nat :=
  l.dedup.length

/-- Decimal digit character (inputs are always below 10). -/
def digitChar10 (d : Nat) : Char :=
  if d = 0 then '0' else if d = 1 then '1' else if d = 2 then '2'
  else if d = 3 then '3' else if d = 4 then '4' else if d = 5 then '5'
  else if d = 6 then '6' else if d = 7 then '7' else if d = 8 then '8'
  else '9'

/-- Two-digit zero-padded decimal, as Python %02d prints values below 100. -/
def pad2 (n : Nat) : PyStr :=
  [digitChar10 (n / 10 % 10), digitChar10 (n % 10)]

/-- Four-digit zero-padded decimal, as Python %04d prints values below
10000 (Python years never exceed 9999). -/
def pad4 (n : Nat) : PyStr :=
  [digitChar10 (n / 1000 % 10), digitChar10 (n / 100 % 10),
   digitChar10 (n / 10 % 10), digitChar10 (n % 10)]

/-- Six-digit zero-padded decimal, as Python %06d prints microseconds. -/
def pad6 (n : Nat) : PyStr :=
  [digitChar10 (n / 100000 % 10), digitChar10 (n / 10000 % 10),
   digitChar10 (n / 1000 % 10), digitChar10 (n / 100 % 10),
   digitChar10 (n / 10 % 10), digitChar10 (n % 10)]

/-- A Python datetime value as pydantic hands it to an after-mode
validator of a datetime-annotated field: wall-clock fields plus an
optional fixed UTC offset in minutes (none for a naive datetime). -/
structure PyDateTime where
  year : Nat
  month : Nat
  day : Nat
  hour : Nat
  minute : Nat
  second : Nat
  microsecond : Nat
  tzOffsetMinutes : Option Int
deriving DecidableEq, Repr

/-- The date-time part of datetime.isoformat(): YYYY-MM-DDTHH:MM:SS, with
.ffffff appended exactly when the microsecond field is nonzero. -/
def PyDateTime.naiveIso (v : PyDateTime) : PyStr :=
  pad4 v.year ++ ['-'] ++ pad2 v.month ++ ['-'] ++ pad2 v.day ++ ['T'] ++
  pad2 v.hour ++ [':'] ++ pad2 v.minute ++ [':'] ++ pad2 v.second ++
  (if v.microsecond = 0 then ([] : PyStr) else ['.'] ++ pad6 v.microsecond)

/-- The offset suffix of datetime.isoformat(): empty for a naive value,
+HH:MM for a nonnegative offset, -HH:MM for a negative one. -/
def PyDateTime.offsetIso (v : PyDateTime) : PyStr :=
  match v.tzOffsetMinutes with
  | none => []
  | some o =>
    (if 0 ≤ o then ['+'] else ['-']) ++ pad2 (o.natAbs / 60) ++ [':'] ++
      pad2 (o.natAbs % 60)

/-- Embedding of datetime.isoformat(). -/
def PyDateTime.isoformat (v : PyDateTime) : PyStr :=
  v.naiveIso ++ v.offsetIso

/-- Embedding of QuestionModel.validate_dt_format
(kb_external_models.py lines 42-51).  Under pydantic v2 the dt field is
parsed to a datetime before this after-mode validator runs, so the
isinstance(v, str) branch is dead and the datetime branch executes:
v.isoformat().split('+')[0] + 'Z'.  _DateRange.validate_dt_format and
_DateRange.validate_to_date (lines 179-199) apply the identical
transform to the from_ and to fields. -/
def QuestionModel.validate_dt_format (v : PyDateTime) : PyStr :=
  (pySplit '+' v.isoformat).headD [] ++ ['Z']

/-- Modelled Python runtime fact: uuid.UUID(v) with a list argument (the
whole fileIds value, as QuestionModel.validate_file_ids passes it) fails
with AttributeError inside hex.replace before any parsing, for every
list, empty or not; AttributeError is not a subclass of ValueError. -/
def uuidUUIDOfList (v : List PyStr) : Except PyExc Unit :=
  .error .attributeError

/-- Embedding of QuestionModel.validate_file_ids (kb_external_models.py
lines 34-40): try uuid.UUID(v) on the whole list; except ValueError
re-raise a ValueError; any other exception propagates. -/
def QuestionModel.validate_file_ids (v : List PyStr) : Except PyExc (List PyStr) :=
  match uuidUUIDOfList v with
  | .ok _ => .ok v
  | .error .valueError => .error .valueError
  | .error e => .error e

/-- Embedding of the QuestionModel.fileIds field pipeline: pydantic does
not run field validators on the default value (validate_default is
unset), so an omitted field takes the default [] untouched, while a
supplied list goes through validate_file_ids. -/
def QuestionModel.fileIdsField (provided : Option (List PyStr)) :
    Except PyExc (List PyStr) :=
  match provided with
  | none => .ok []
  | some v => QuestionModel.validate_file_ids v

/-- Embedding of the pydantic-core ValidationInfo object that pydantic v2
passes as the second positional argument of a field validator, however
that parameter is named: it carries the previously validated fields, but
exposes them only through the .data attribute. -/
structure ValidationInfo (α : Type) where
  data : List (PyStr × α)
deriving DecidableEq, Repr

/-- Modelled Python runtime fact (pydantic 2.x): ValidationInfo
implements none of the container protocols, so a membership test
(key in info) raises TypeError, "argument of type 'ValidationInfo' is
not iterable". -/
def ValidationInfo.pyContains {α : Type} (info : ValidationInfo α) (key : PyStr) :
    Except PyExc Bool :=
  .error .typeError

/-- Modelled Python runtime fact (pydantic 2.x): ValidationInfo has no
__getitem__, so subscripting it raises TypeError. -/
def ValidationInfo.pyGetItem {α : Type} (info : ValidationInfo α) (key : PyStr) :
    Except PyExc α :=
  .error .typeError

/-- Embedding of Python round(x, 2) on rationals: round half to even at
two decimal places (CPython rounds a float to the representable value
nearest to this; every concrete value in the claims is exact). -/
def roundHalfEven (x : ℚ) : ℤ :=
  if x - Int.floor x < 1 / 2 then Int.floor x
  else if 1 / 2 < x - Int.floor x then Int.floor x + 1
  else if Even (Int.floor x) then Int.floor x else Int.floor x + 1

/-- round(v, 2): the nearest multiple of 1/100, ties to even. -/
def pyRound2 (x : ℚ) : ℚ :=
  (roundHalfEven (x * 100) : ℚ) / 100

/-- Embedding of ServiceCreateModel.validate_trainable_score
(kb_crud_models.py lines 159-165).  The validator is written v1-style
with a values parameter, but under pydantic v2 that parameter receives
the ValidationInfo object, so the test 'trainable' in values raises
TypeError before any cross-field comparison happens. -/
def ServiceCreateModel.validate_trainable_score (v : ℚ)
    (values : ValidationInfo Bool) : Except PyExc ℚ := do
  let mem ← values.pyContains ("trainable".toList)
  if mem then
    let t ← values.pyGetItem ("trainable".toList)
    if t = false ∧ 0 < v then
      throw .valueError
    else
      pure (pyRound2 v)
  else
    pure (pyRound2 v)

/-- Embedding of the max_trainable_score field pipeline when the field is
supplied: pydantic first enforces the declared bounds ge=0.0, le=1.0 on
the parsed value, then invokes validate_trainable_score with the
ValidationInfo carrying the already-validated trainable field. -/
def ServiceCreateModel.maxTrainableScoreField (trainable : Bool) (v : ℚ) :
    Except PyExc ℚ :=
  if v < 0 ∨ 1 < v then .error .valueError
  else ServiceCreateModel.validate_trainable_score v
    ⟨[(("trainable".toList), trainable)]⟩

/-- Embedding of ServiceCreateModel.validate_penalty (kb_crud_models.py
lines 186-190): return round(v, 2). -/
def ServiceCreateModel.validate_penalty (v : ℚ) : ℚ :=
  pyRound2 v

/-- Embedding of the inequal_lang_penalty field pipeline: declared bounds
ge=0.0, le=1.0, then validate_penalty. -/
def ServiceCreateModel.inequalLangPenaltyField (v : ℚ) : Except PyExc ℚ :=
  if v < 0 ∨ 1 < v then .error .valueError
  else .ok (ServiceCreateModel.validate_penalty v)

/-- The DocumentModel fields read by the validators under verification
(kb_crud_models.py lines 82-98); the remaining declared fields enter no
claim. -/
structure DocumentModel where
  document_id : Int
  name : PyStr
  question : PyStr
  answer : PyStr
deriving DecidableEq, Repr

/-- Embedding of DocumentModel.validate_question_length (kb_crud_models.py
lines 100-108): reject when the stripped value is empty or the raw value
exceeds 1000 characters, otherwise return the stripped value. -/
def DocumentModel.validate_question_length (v : PyStr) : Except PyExc PyStr :=
  if (pyStrip v).length = 0 then .error .valueError
  else if 1000 < v.length then .error .valueError
  else .ok (pyStrip v)

/-- Embedding of DocumentModel.validate_answer_length (kb_crud_models.py
lines 110-116): reject when the stripped value is empty, otherwise return
the stripped value. -/
def DocumentModel.validate_answer_length (v : PyStr) : Except PyExc PyStr :=
  if (pyStrip v).length = 0 then .error .valueError
  else .ok (pyStrip v)

/-- Embedding of the DocumentModel.question field pipeline: pydantic
enforces the declared min_length=1 and max_length=1000 on the raw value,
then runs validate_question_length. -/
def DocumentModel.questionField (v : PyStr) : Except PyExc PyStr :=
  if v.length < 1 ∨ 1000 < v.length then .error .valueError
  else DocumentModel.validate_question_length v

/-- Embedding of the DocumentModel.answer field pipeline: pydantic
enforces the declared min_length=1 on the raw value, then runs
validate_answer_length. -/
def DocumentModel.answerField (v : PyStr) : Except PyExc PyStr :=
  if v.length < 1 then .error .valueError
  else DocumentModel.validate_answer_length v

/-- Embedding of ServiceCreateModel.validate_documents (kb_crud_models.py
lines 167-184): an empty list passes; otherwise reject when the
document_id values are not pairwise distinct (len vs len-of-set), then
reject when the lower-cased, stripped questions are not pairwise
distinct; otherwise return the list unchanged. -/
def ServiceCreateModel.validate_documents (v : List DocumentModel) :
    Except PyExc (List DocumentModel) :=
  if v = [] then .ok v
  else
    let document_ids := v.map (fun d => d.document_id)
    if document_ids.length ≠ pySetSize document_ids then .error .valueError
    else
      let questions := v.map (fun d => pyStrip (pyLower d.question))
      if questions.length ≠ pySetSize questions then .error .valueError
      else .ok v

/-- A naive Python datetime (no tzinfo), as the interval and conversation
range fields hold for the inputs the claims describe. -/
structure NaiveDT where
  year : Nat
  month : Nat
  day : Nat
  hour : Nat
  minute : Nat
  second : Nat
deriving DecidableEq, Repr

/-- Embedding of Python datetime <= on naive values: Python compares
naive datetimes field-lexicographically. -/
def NaiveDT.pyLe (a b : NaiveDT) : Bool :=
  if a.year ≠ b.year then decide (a.year < b.year)
  else if a.month ≠ b.month then decide (a.month < b.month)
  else if a.day ≠ b.day then decide (a.day < b.day)
  else if a.hour ≠ b.hour then decide (a.hour < b.hour)
  else if a.minute ≠ b.minute then decide (a.minute < b.minute)
  else decide (a.second ≤ b.second)

/-- The chronological strict order on naive datetimes, as the spec reads
"end strictly after start"; stated independently of pyLe. -/
def NaiveDT.chronoLt (a b : NaiveDT) : Prop :=
  a.year < b.year ∨ (a.year = b.year ∧ (a.month < b.month ∨ (a.month = b.month ∧
  (a.day < b.day ∨ (a.day = b.day ∧ (a.hour < b.hour ∨ (a.hour = b.hour ∧
  (a.minute < b.minute ∨ (a.minute = b.minute ∧ a.second < b.second)))))))))

/-- Embedding of the _Interval record (kb_external_models.py lines 94-98).
The Python field named end is called end_ here because end is a Lean
keyword. -/
structure _Interval where
  start : NaiveDT
  end_ : NaiveDT
deriving DecidableEq, Repr

/-- Embedding of _Interval.validate_end_after_start (kb_external_models.py
lines 100-104), a model_validator(mode=after): raise ValueError when
self.end <= self.start, otherwise return the model unchanged. -/
def _Interval.validate_end_after_start (self : _Interval) : Except PyExc _Interval :=
  if self.end_.pyLe self.start then .error .valueError
  else .ok self

/-- Embedding of GetConversationsModel.validate_date_range
(kb_external_models.py lines 79-84).  The validator is written v1-style
with a values parameter; under pydantic v2 that parameter receives the
ValidationInfo object, so the test 'tsFrom' in values raises TypeError
whenever the tsTo field is supplied. -/
def GetConversationsModel.validate_date_range (v : Option NaiveDT)
    (values : ValidationInfo (Option NaiveDT)) : Except PyExc (Option NaiveDT) := do
  let mem ← values.pyContains ("tsFrom".toList)
  if mem then
    let tsFrom ← values.pyGetItem ("tsFrom".toList)
    match tsFrom, v with
    | some f, some t =>
      if t.pyLe f then throw .valueError else pure v
    | _, _ => pure v
  else
    pure v

/-- Embedding of STATUSES (kb_external_models.py line 7). -/
def STATUSES : List PyStr :=
  [("ClosedByBot".toList), ("ClosedByOperator".toList),
   ("ClosedByOperatorWithBot".toList), ("ClosedByTimer".toList)]

/-- The loop body of validate_conversation_status: raise ValueError at
the first entry outside STATUSES. -/
def checkStatuses : List PyStr → Except PyExc Unit
  | [] => .ok ()
  | x :: xs => if x ∈ STATUSES then checkStatuses xs else .error .valueError

/-- Embedding of GetConversationsModel.validate_conversation_status
(kb_external_models.py lines 86-91): iterate over the supplied list,
raising ValueError at any entry outside STATUSES, then return the list. -/
def GetConversationsModel.validate_conversation_status (v : List PyStr) :
    Except PyExc (List PyStr) :=
  match checkStatuses v with
  | .ok _ => .ok v
  | .error e => .error e

/-- Bound check for an optional integer query parameter: an omitted
parameter is not constrained, a supplied one must be at least lo. -/
def optGe (lo : Int) : Option Int → Bool
  | none => true
  | some n => decide (lo ≤ n)

/-- Literal["asc", "desc"] check for an optional sort_order parameter. -/
def sortOrderOk : Option PyStr → Bool
  | none => true
  | some s => s = ("asc".toList) ∨ s = ("desc".toList)

/-- Embedding of the validated GetParaphrasesyParamsModel record
(kb_crud_models.py lines 671-691).  Every constraint in the source is a
per-field numeric bound or literal check; count and limit_paraphrases
(likewise offset and offset_paraphrases) are declared as independent
fields, with aliasing mentioned only in their description strings. -/
structure GetParaphrasesyParamsModel where
  document_id : Int
  limit_paraphrases : Option Int
  offset_paraphrases : Option Int
  offset : Option Int
  count : Option Int
  sort_by : PyStr
  sort_order : PyStr
deriving DecidableEq, Repr

/-- The query parameters a request supplies to GetParaphrasesyParamsModel
(none means the parameter was omitted). -/
structure GetParaphrasesyParamsInput where
  document_id : Int
  limit_paraphrases : Option Int
  offset_paraphrases : Option Int
  offset : Option Int
  count : Option Int
  sort_by : Option PyStr
  sort_order : Option PyStr
deriving DecidableEq, Repr

/-- Embedding of GetParaphrasesyParamsModel validation: the declared
bounds gt=0 (document_id), ge=1 (limit_paraphrases, count), ge=0
(offset_paraphrases, offset) and the sort_order literal, with declared
defaults for omitted fields.  No cross-field rule exists in the source:
each supplied value is stored in its own field. -/
def GetParaphrasesyParamsModel.validate (inp : GetParaphrasesyParamsInput) :
    Except PyExc GetParaphrasesyParamsModel :=
  if ¬ 0 < inp.document_id then .error .valueError
  else if ¬ optGe 1 inp.limit_paraphrases then .error .valueError
  else if ¬ optGe 0 inp.offset_paraphrases then .error .valueError
  else if ¬ optGe 0 inp.offset then .error .valueError
  else if ¬ optGe 1 inp.count then .error .valueError
  else if ¬ sortOrderOk inp.sort_order then .error .valueError
  else .ok ⟨inp.document_id, inp.limit_paraphrases, inp.offset_paraphrases,
    some (inp.offset.getD 0), inp.count,
    inp.sort_by.getD ("id".toList), inp.sort_order.getD ("asc".toList)⟩

/-- Every character digitChar10 produces is a decimal digit, never '+'. -/
theorem digitChar10_ne_plus (d : Nat) : digitChar10 d ≠ '+' := by
  unfold digitChar10
  split_ifs <;> decide

/-- A character outside both lists is outside their concatenation. -/
theorem char_not_mem_append {c : Char} {a b : PyStr} (ha : c ∉ a) (hb : c ∉ b) :
    c ∉ a ++ b :=
  fun h => (List.mem_append.mp h).elim ha hb

/-- pad2 never prints a '+'. -/
theorem pad2_no_plus (n : Nat) : '+' ∉ pad2 n := by
  intro h
  simp only [pad2, List.mem_cons, List.not_mem_nil, or_false] at h
  rcases h with h | h <;> exact digitChar10_ne_plus _ h.symm

/-- pad4 never prints a '+'. -/
theorem pad4_no_plus (n : Nat) : '+' ∉ pad4 n := by
  intro h
  simp only [pad4, List.mem_cons, List.not_mem_nil, or_false] at h
  rcases h with h | h | h | h <;> exact digitChar10_ne_plus _ h.symm

/-- pad6 never prints a '+'. -/
theorem pad6_no_plus (n : Nat) : '+' ∉ pad6 n := by
  intro h
  simp only [pad6, List.mem_cons, List.not_mem_nil, or_false] at h
  rcases h with h | h | h | h | h | h <;> exact digitChar10_ne_plus _ h.symm

/-- The date-time part of isoformat contains no '+': it is digits and the
separators '-', 'T', ':', '.'. -/
theorem naiveIso_no_plus (v : PyDateTime) : '+' ∉ v.naiveIso := by
  unfold PyDateTime.naiveIso
  have hmicro : '+' ∉ (if v.microsecond = 0 then ([] : PyStr)
      else ['.'] ++ pad6 v.microsecond) := by
    split
    · decide
    · exact char_not_mem_append (by decide) (pad6_no_plus _)
  exact char_not_mem_append (char_not_mem_append (char_not_mem_append
    (char_not_mem_append (char_not_mem_append (char_not_mem_append
    (char_not_mem_append (char_not_mem_append (char_not_mem_append
    (char_not_mem_append (char_not_mem_append (pad4_no_plus _)
    (by decide)) (pad2_no_plus _)) (by decide)) (pad2_no_plus _))
    (by decide)) (pad2_no_plus _)) (by decide)) (pad2_no_plus _))
    (by decide)) (pad2_no_plus _)) hmicro

/-- The first chunk Python split returns for s ++ t, when the separator
does not occur in s, is s followed by the first chunk of t. -/
theorem pySplit_headD_append (c : Char) (s t : PyStr) (hs : c ∉ s) :
    (pySplit c (s ++ t)).headD [] = s ++ (pySplit c t).headD [] := by
  induction s with
  | nil => simp
  | cons x xs ih =>
    have hx : ¬ x = c := fun h => hs (h ▸ List.mem_cons_self x xs)
    have hxs : c ∉ xs := fun h => hs (List.mem_cons_of_mem x h)
    simp only [List.cons_append, pySplit, hx, if_false, List.headD_cons]
    simpa using ih hxs

/-- C1 counterexample: the accepted timestamp 2024-01-02T03:04:05+02:00 is
stored as 2024-01-02T03:04:05Z, i.e. the offset is merely cut off and a Z
appended; it is not the claimed UTC conversion 2024-01-02T01:04:05Z. -/
theorem c1_counterexample :
    QuestionModel.validate_dt_format ⟨2024, 1, 2, 3, 4, 5, 0, some 120⟩ =
      ("2024-01-02T03:04:05Z".toList) ∧
    QuestionModel.validate_dt_format ⟨2024, 1, 2, 3, 4, 5, 0, some 120⟩ ≠
      ("2024-01-02T01:04:05Z".toList) := by
  constructor <;> decide

/-- C1 (amended): for a naive datetime or one with a nonnegative UTC
offset, validate_dt_format stores the wall-clock time with the offset
discarded and a literal Z appended; the wall-clock fields are not
converted to UTC, so 2024-01-02T03:04:05+02:00 becomes
2024-01-02T03:04:05Z. -/
theorem c1_dt_format_strips_offset (v : PyDateTime)
    (h : v.tzOffsetMinutes = none ∨
      ∃ o : Int, v.tzOffsetMinutes = some o ∧ 0 ≤ o) :
    QuestionModel.validate_dt_format v = v.naiveIso ++ ['Z'] := by
  unfold QuestionModel.validate_dt_format PyDateTime.isoformat PyDateTime.offsetIso
  rcases h with h | ⟨o, h, ho⟩
  · simp only [h]
    rw [pySplit_headD_append '+' v.naiveIso [] (naiveIso_no_plus v)]
    simp [pySplit]
  · simp only [h, if_pos ho]
    rw [pySplit_headD_append '+' v.naiveIso _ (naiveIso_no_plus v)]
    simp [pySplit]

/-- C1 witness: the amended statement applied at 2024-01-02T03:04:05+02:00. -/
theorem c1_dt_format_strips_offset_witness :
    QuestionModel.validate_dt_format ⟨2024, 1, 2, 3, 4, 5, 0, some 120⟩ =
      PyDateTime.naiveIso ⟨2024, 1, 2, 3, 4, 5, 0, some 120⟩ ++ ['Z'] :=
  c1_dt_format_strips_offset ⟨2024, 1, 2, 3, 4, 5, 0, some 120⟩
    (Or.inr ⟨120, rfl, by decide⟩)

/-- C10 (confirmed): supplying any fileIds list to QuestionModel, even a
list of well-formed UUID strings, never validates, because
validate_file_ids applies uuid.UUID to the list itself, which fails with
AttributeError that the except ValueError clause does not catch; only an
input omitting fileIds, which takes the default empty list without
running the validator, is accepted. -/
theorem c10_file_ids_list_never_accepted :
    (∀ v : List PyStr,
      QuestionModel.fileIdsField (some v) = .error .attributeError) ∧
    QuestionModel.fileIdsField none = .ok [] :=
  ⟨fun _ => rfl, rfl⟩

/-- C2 (code_bug): the trainable/max_trainable_score cross-field rule
never executes: for every trainable flag and every in-bounds score,
supplying max_trainable_score makes validation raise TypeError on the
membership test 'trainable' in values, values being a pydantic-v2
ValidationInfo; so 0.4 with trainable=true is not accepted and rounded,
and 0.4 with trainable=false is not rejected with a validation error. -/
theorem c2_trainable_score_typeerror (t : Bool) (v : ℚ)
    (h0 : 0 ≤ v) (h1 : v ≤ 1) :
    ServiceCreateModel.maxTrainableScoreField t v = .error .typeError := by
  unfold ServiceCreateModel.maxTrainableScoreField
  rw [if_neg]
  · rfl
  · push_neg
    exact ⟨h0, h1⟩

/-- C2 witness: the TypeError at the spec's own example, trainable=true
with max_trainable_score=0.4. -/
theorem c2_trainable_score_typeerror_witness :
    ServiceCreateModel.maxTrainableScoreField true (2/5) = .error .typeError :=
  c2_trainable_score_typeerror true (2/5) (by norm_num) (by norm_num)

/-- C6 (code_bug): whenever tsTo is supplied, validate_date_range raises
TypeError on the membership test 'tsFrom' in values, values being a
pydantic-v2 ValidationInfo, for every tsTo value and every ValidationInfo
content: a query with tsTo > tsFrom is never accepted, and one with
tsTo <= tsFrom fails with TypeError rather than a validation error. -/
theorem c6_date_range_typeerror (v : Option NaiveDT)
    (values : ValidationInfo (Option NaiveDT)) :
    GetConversationsModel.validate_date_range v values = .error .typeError := rfl

/-- The status loop succeeds exactly when every entry is in STATUSES. -/
theorem checkStatuses_ok_iff (v : List PyStr) :
    checkStatuses v = .ok () ↔ ∀ x ∈ v, x ∈ STATUSES := by
  induction v with
  | nil => simp [checkStatuses]
  | cons x xs ih =>
    unfold checkStatuses
    by_cases hx : x ∈ STATUSES
    · simp [hx, ih]
    · simp [hx]

/-- C7 (confirmed): validate_conversation_status accepts a supplied
status list exactly when every entry is one of the four closing reasons
ClosedByBot, ClosedByOperator, ClosedByOperatorWithBot, ClosedByTimer;
a list containing any other string raises ValueError. -/
theorem c7_conversation_status_enum (v : List PyStr) :
    GetConversationsModel.validate_conversation_status v = .ok v ↔
      ∀ x ∈ v, x ∈ STATUSES := by
  unfold GetConversationsModel.validate_conversation_status
  cases h : checkStatuses v with
  | ok u =>
    cases u
    simpa using (checkStatuses_ok_iff v).mp h
  | error e =>
    constructor
    · intro hh
      exact absurd hh (by simp)
    · intro hall
      rw [(checkStatuses_ok_iff v).mpr hall] at h
      simp at h

/-- The Python lexicographic <= on naive datetimes is the complement of
the chronological strict order in the other direction. -/
theorem pyLe_iff_not_chronoLt (a b : NaiveDT) :
    NaiveDT.pyLe a b = true ↔ ¬ NaiveDT.chronoLt b a := by
  unfold NaiveDT.pyLe NaiveDT.chronoLt
  split_ifs <;> simp_all <;> omega

/-- C5 (confirmed): validate_end_after_start accepts an interval exactly
when its end is chronologically strictly after its start; in particular
equal bounds are rejected with ValueError and any strictly later end is
accepted. -/
theorem c5_interval_end_strictly_after_start (s e : NaiveDT) :
    _Interval.validate_end_after_start ⟨s, e⟩ = .ok ⟨s, e⟩ ↔
      NaiveDT.chronoLt s e := by
  unfold _Interval.validate_end_after_start
  by_cases h : NaiveDT.pyLe e s = true
  · rw [if_pos h]
    constructor
    · intro hh
      exact absurd hh (by simp)
    · intro hlt
      exact absurd hlt ((pyLe_iff_not_chronoLt e s).mp h)
  · rw [if_neg h]
    have hlt : NaiveDT.chronoLt s e :=
      not_not.mp (fun hn => h ((pyLe_iff_not_chronoLt e s).mpr hn))
    simp [hlt]

/-- The Python len(set(l)) count equals the length exactly when the list
has no duplicates. -/
theorem pySetSize_eq_length_iff {α : Type} [DecidableEq α] (l : List α) :
    pySetSize l = l.length ↔ l.Nodup := by
  unfold pySetSize
  constructor
  · intro h
    exact List.dedup_eq_self.mp ((List.dedup_sublist l).eq_of_length h)
  · intro h
    rw [List.dedup_eq_self.mpr h]

/-- C3 (confirmed): validate_documents returns the list unchanged exactly
when the document_id values are pairwise distinct and the stripped,
lower-cased question texts are pairwise distinct; a duplicate in either
respect raises ValueError. -/
theorem c3_documents_unique (v : List DocumentModel) :
    ServiceCreateModel.validate_documents v = .ok v ↔
      (v.map (fun d => d.document_id)).Nodup ∧
      (v.map (fun d => pyStrip (pyLower d.question))).Nodup := by
  simp only [ServiceCreateModel.validate_documents]
  split_ifs with h1 h2 h3
  · subst h1
    simp
  · constructor
    · intro hh
      exact absurd hh (by simp)
    · rintro ⟨ha, _⟩
      exact absurd ((pySetSize_eq_length_iff _).mpr ha).symm h2
  · constructor
    · intro hh
      exact absurd hh (by simp)
    · rintro ⟨_, hb⟩
      exact absurd ((pySetSize_eq_length_iff _).mpr hb).symm h3
  · have ha := (pySetSize_eq_length_iff
      (v.map (fun d => d.document_id))).mp (not_ne_iff.mp h2).symm
    have hb := (pySetSize_eq_length_iff
      (v.map (fun d => pyStrip (pyLower d.question)))).mp (not_ne_iff.mp h3).symm
    simp [ha, hb]

/-- C9 (confirmed): a question or answer that is empty or whitespace-only
never validates (the empty string fails min_length=1, a whitespace-only
string fails the empty-after-strip check), and every accepted question or
answer equals the stripped input and is non-empty. -/
theorem c9_question_answer_trimmed_nonempty (s : PyStr) :
    (pyStrip s = [] →
      DocumentModel.questionField s = .error .valueError ∧
      DocumentModel.answerField s = .error .valueError) ∧
    (∀ out, DocumentModel.questionField s = .ok out →
      out = pyStrip s ∧ out ≠ []) ∧
    (∀ out, DocumentModel.answerField s = .ok out →
      out = pyStrip s ∧ out ≠ []) := by
  refine ⟨fun hs => ?_, fun out hout => ?_, fun out hout => ?_⟩
  · have h0 : (pyStrip s).length = 0 := by rw [hs]; rfl
    constructor
    · unfold DocumentModel.questionField DocumentModel.validate_question_length
      split_ifs <;> simp_all
    · unfold DocumentModel.answerField DocumentModel.validate_answer_length
      split_ifs <;> simp_all
  · unfold DocumentModel.questionField DocumentModel.validate_question_length at hout
    split_ifs at hout with a b c
    injection hout with h
    subst h
    refine ⟨rfl, fun hc => b ?_⟩
    rw [hc]
    rfl
  · unfold DocumentModel.answerField DocumentModel.validate_answer_length at hout
    split_ifs at hout with a b
    injection hout with h
    subst h
    refine ⟨rfl, fun hc => b ?_⟩
    rw [hc]
    rfl

/-- C9 witness: a whitespace-only question and answer is rejected. -/
theorem c9_question_answer_witness :
    DocumentModel.questionField ("  ".toList) = .error .valueError ∧
    DocumentModel.answerField ("  ".toList) = .error .valueError :=
  (c9_question_answer_trimmed_nonempty ("  ".toList)).1 (by decide)

/-- Rounding half to even moves a rational by at most one half. -/
theorem abs_roundHalfEven_sub_le (x : ℚ) :
    |(roundHalfEven x : ℚ) - x| ≤ 1 / 2 := by
  have h1 : ((Int.floor x : ℤ) : ℚ) ≤ x := Int.floor_le x
  have h2 : x < ((Int.floor x : ℤ) : ℚ) + 1 := Int.lt_floor_add_one x
  unfold roundHalfEven
  split_ifs with ha hb hc
  all_goals rw [abs_le]
  all_goals constructor <;> push_cast <;> linarith

/-- C8 (confirmed): every in-bounds penalty is accepted as an exact
multiple of 1/100 at distance at most 1/200 from the input, i.e. the
stored value is the input rounded to exactly two decimal places. -/
theorem c8_penalty_rounded_two_decimals (v : ℚ) (h0 : 0 ≤ v) (h1 : v ≤ 1) :
    ∃ k : ℤ, ServiceCreateModel.inequalLangPenaltyField v = .ok ((k : ℚ) / 100) ∧
      |((k : ℚ) / 100) - v| ≤ 1 / 200 := by
  refine ⟨roundHalfEven (v * 100), ?_, ?_⟩
  · unfold ServiceCreateModel.inequalLangPenaltyField
      ServiceCreateModel.validate_penalty pyRound2
    rw [if_neg (by push_neg; exact ⟨h0, h1⟩)]
  · have h := abs_roundHalfEven_sub_le (v * 100)
    have e : ((roundHalfEven (v * 100) : ℚ) / 100 - v) =
        ((roundHalfEven (v * 100) : ℚ) - v * 100) / 100 := by ring
    rw [e, abs_div, show |(100 : ℚ)| = 100 from by norm_num]
    linarith

/-- C8 witness: the penalty 0.333 is accepted as exactly 0.33, and the
general statement instantiated there. -/
theorem c8_penalty_rounded_witness :
    ServiceCreateModel.inequalLangPenaltyField (333 / 1000) = .ok (33 / 100) ∧
    (∃ k : ℤ, ServiceCreateModel.inequalLangPenaltyField (333 / 1000) =
        .ok ((k : ℚ) / 100) ∧ |((k : ℚ) / 100) - 333 / 1000| ≤ 1 / 200) :=
  ⟨by
    unfold ServiceCreateModel.inequalLangPenaltyField
      ServiceCreateModel.validate_penalty pyRound2 roundHalfEven
    norm_num,
   c8_penalty_rounded_two_decimals (333 / 1000) (by norm_num) (by norm_num)⟩

/-- C4 (code_bug evaluation): a request supplying document_id=1, count=10
and limit_paraphrases=20 validates successfully and the validated record
retains both distinct values, count=10 and limit_paraphrases=20: no
precedence between the public parameter and its documented internal alias
is applied anywhere. -/
theorem c4_no_alias_resolution :
    ∃ m : GetParaphrasesyParamsModel,
      GetParaphrasesyParamsModel.validate
        ⟨1, some 20, none, none, some 10, none, none⟩ = .ok m ∧
      m.count = some 10 ∧ m.limit_paraphrases = some 20 ∧
      m.count ≠ m.limit_paraphrases := by
  refine ⟨⟨1, some 20, none, some 0, some 10, ("id".toList), ("asc".toList)⟩,
    rfl, rfl, rfl, by decide⟩
